import Mathlib

/-!
Shallow embedding of the Pulse multi-token ledger + marketplace canister.

Namespace `Pulse` embeds the canonical marketplace backend
(`backend/main.mo`, the "better error handling" variant): token creation,
transfer / approve / transferFrom, listings, buy and cancel_listing.
Namespace `PulseRBAC` embeds the role-based variant
(`src/pulse_backend/main.mo`): user profiles and its `create_token`.

Accounts (Motoko `Principal`) are modelled as naturals; `0` plays the role
of the unique anonymous principal.  `Time.now()` is threaded as an explicit
`now : Nat` argument.  Motoko `Result.Result<Ok, Err>` becomes
`Except Err Ok`; mutation of the stable `tokens` / `listings` arrays
becomes explicit state passing on `State`.
-/

namespace Pulse

abbrev Account : Type := Nat
abbrev TokenId : Type := Nat
abbrev Tokens : Type := Nat

/-- The unique anonymous principal, modelled as account `0`. -/
def anonymousAccount : Account := 0

/-- Mirror of `Principal.isAnonymous`. -/
def isAnonymous (a : Account) : Bool := decide (a = anonymousAccount)

structure Approval where
  tokenId : TokenId
  owner : Account
  spender : Account
  allowance : Tokens
  expires_at : Option Nat
  created_at : Nat
deriving DecidableEq, Inhabited

structure TokenMetadata where
  name : String
  symbol : String
  decimals : Nat
  total_supply : Tokens
  minting_account : Account
  logo_url : Option String
  description : Option String
  created_at : Nat
deriving DecidableEq, Inhabited

structure Token where
  id : TokenId
  metadata : TokenMetadata
  balances : List (Account × Tokens)
  approvals : List Approval
deriving DecidableEq, Inhabited

structure Listing where
  id : Nat
  tokenId : TokenId
  seller : Account
  amount : Tokens
  price_tokenId : TokenId
  price_amount_per_token : Tokens
  created_at : Nat
  active : Bool
deriving DecidableEq, Inhabited

inductive CreateTokenError where
  | InvalidName
  | InvalidSymbol
  | InvalidSupply
  | AnonymousNotAllowed
  | InternalError (msg : String)
deriving DecidableEq

inductive TransferError where
  | TokenNotFound
  | InsufficientBalance
  | SelfTransfer
  | InternalError (msg : String)
deriving DecidableEq

inductive ApprovalError where
  | TokenNotFound
  | SelfApproval
  | InternalError (msg : String)
deriving DecidableEq

/-- The stable state of the canister: `tokens`, `listings` and both id
counters. -/
structure State where
  tokens : List Token
  listings : List Listing
  nextTokenId : TokenId
  nextListingId : Nat
deriving DecidableEq, Inhabited

/-- Mirror of `isValidName`: `2 <= size and size <= 50`. -/
def isValidName (name : String) : Bool :=
  decide (2 ≤ name.length ∧ name.length ≤ 50)

/-- Mirror of `isValidSymbol`: `2 <= size and size <= 10`. -/
def isValidSymbol (symbol : String) : Bool :=
  decide (2 ≤ symbol.length ∧ symbol.length ≤ 10)

/-- Worker for `findTokenIndex`: the Motoko loop returns the first index
whose token id matches. -/
def findTokenIndexAux (id : TokenId) : Nat → List Token → Option Nat
  | _, [] => none
  | i, t :: ts => if t.id = id then some i else findTokenIndexAux id (i + 1) ts

/-- Mirror of `findTokenIndex`. -/
def findTokenIndex (ts : List Token) (id : TokenId) : Option Nat :=
  findTokenIndexAux id 0 ts

/-- First-match lookup in a balances array, defaulting to `0`; this is the
loop body of `getBalance`. -/
def balanceLookup : List (Account × Tokens) → Account → Tokens
  | [], _ => 0
  | (acc, b) :: rest, account => if acc = account then b else balanceLookup rest account

/-- Mirror of `getBalance(tokenIdx, account)`. -/
def getBalance (st : State) (tokenIdx : Nat) (account : Account) : Tokens :=
  balanceLookup (st.tokens.getD tokenIdx default).balances account

/-- Balance-array update of `setBalance`: `Array.tabulate` rewrites every
entry keyed by `account` (setting `found`), and the entry is appended when
no key matched. -/
def setBalances (bs : List (Account × Tokens)) (account : Account) (amount : Tokens) :
    List (Account × Tokens) :=
  let newBalances := bs.map fun p => if p.1 = account then (account, amount) else p
  if bs.any fun p => decide (p.1 = account) then newBalances
  else newBalances ++ [(account, amount)]

/-- Mirror of `setBalance(tokenIdx, account, amount)`: rebuilds the token at
`tokenIdx` with the updated balances array and writes it back. -/
def setBalance (st : State) (tokenIdx : Nat) (account : Account) (amount : Tokens) : State :=
  let token := st.tokens.getD tokenIdx default
  let updatedToken : Token :=
    { id := token.id, metadata := token.metadata,
      balances := setBalances token.balances account amount,
      approvals := token.approvals }
  { st with tokens := st.tokens.set tokenIdx updatedToken }

/-- Mirror of `transferTokens`: reads both balances, rejects when the source
balance is short, then writes the debit and the credit in that order.  Note
that `toBalance` is read before the debit is written, so a transfer whose
two accounts coincide nets `+amount`.  `none` plays the role of the `false`
return (no mutation happened). -/
def transferTokens (st : State) (tokenIdx : Nat) (src dst : Account) (amount : Tokens) :
    Option State :=
  let fromBalance := getBalance st tokenIdx src
  if fromBalance < amount then none
  else
    let toBalance := getBalance st tokenIdx dst
    let st1 := setBalance st tokenIdx src (fromBalance - amount)
    let st2 := setBalance st1 tokenIdx dst (toBalance + amount)
    some st2

/-- Mirror of `create_token`: anonymous check, then name, symbol and supply
validation, then the token is appended with the whole supply minted to the
caller. -/
def create_token (caller : Account) (name symbol : String) (initial_supply : Tokens)
    (decimals : Nat) (logo_url : Option String) (now : Nat) (st : State) :
    Except CreateTokenError TokenId × State :=
  if isAnonymous caller then (Except.error CreateTokenError.AnonymousNotAllowed, st)
  else if !(isValidName name) then (Except.error CreateTokenError.InvalidName, st)
  else if !(isValidSymbol symbol) then (Except.error CreateTokenError.InvalidSymbol, st)
  else if initial_supply = 0 then (Except.error CreateTokenError.InvalidSupply, st)
  else
    let metadata : TokenMetadata :=
      { name := name, symbol := symbol, decimals := decimals,
        total_supply := initial_supply, minting_account := caller,
        logo_url := logo_url, description := none, created_at := now }
    let newToken : Token :=
      { id := st.nextTokenId, metadata := metadata,
        balances := if 0 < initial_supply then [(caller, initial_supply)] else [],
        approvals := [] }
    (Except.ok st.nextTokenId,
      { st with tokens := st.tokens ++ [newToken], nextTokenId := st.nextTokenId + 1 })

/-- Mirror of `transfer`: self-transfer check first, then token lookup, then
the balance move. -/
def transfer (caller : Account) (tokenId : TokenId) (toAcc : Account) (amount : Tokens)
    (st : State) : Except TransferError Bool × State :=
  if caller = toAcc then (Except.error TransferError.SelfTransfer, st)
  else
    match findTokenIndex st.tokens tokenId with
    | some idx =>
      match transferTokens st idx caller toAcc amount with
      | some st2 => (Except.ok true, st2)
      | none => (Except.error TransferError.InsufficientBalance, st)
    | none => (Except.error TransferError.TokenNotFound, st)

/-- The matching condition used by both `approve` and `transferFrom` when
scanning the approvals array. -/
def approvalMatches (ap : Approval) (tokenId : TokenId) (owner spender : Account) : Bool :=
  decide (ap.tokenId = tokenId ∧ ap.owner = owner ∧ ap.spender = spender)

/-- The `allowanceFound` / `currentAllowance` scan of `transferFrom`: the
loop visits every approval, and the last matching entry wins. -/
def scanAllowance (aps : List Approval) (tokenId : TokenId) (owner spender : Account) :
    Bool × Tokens :=
  aps.foldl
    (fun acc ap => if approvalMatches ap tokenId owner spender then (true, ap.allowance) else acc)
    (false, 0)

/-- Body of the `Array.tabulate` in `approve`: a matching approval is
rebuilt with the new allowance, any other entry is kept. -/
def replaceAllowance (tokenId : TokenId) (owner spender : Account) (allowance : Tokens)
    (ap : Approval) : Approval :=
  if approvalMatches ap tokenId owner spender then
    { tokenId := ap.tokenId, owner := ap.owner, spender := ap.spender,
      allowance := allowance, expires_at := ap.expires_at, created_at := ap.created_at }
  else ap

/-- Body of the `Array.tabulate` in the allowance update of `transferFrom`: a
matching approval is decremented by `amount` (clamped at zero), any other
entry is kept. -/
def decrementAllowance (tokenId : TokenId) (owner spender : Account) (amount : Tokens)
    (ap : Approval) : Approval :=
  if approvalMatches ap tokenId owner spender then
    { tokenId := ap.tokenId, owner := ap.owner, spender := ap.spender,
      allowance := if amount ≤ ap.allowance then ap.allowance - amount else 0,
      expires_at := ap.expires_at, created_at := ap.created_at }
  else ap

/-- Mirror of `approve`: self-approval check, token lookup, then replace the
allowance of every matching approval (last write wins) or append a fresh
record when none matched.  The balance of the owner is never read. -/
def approve (caller : Account) (tokenId : TokenId) (spender : Account) (allowance : Tokens)
    (now : Nat) (st : State) : Except ApprovalError Bool × State :=
  if caller = spender then (Except.error ApprovalError.SelfApproval, st)
  else
    match findTokenIndex st.tokens tokenId with
    | some idx =>
      let token := st.tokens.getD idx default
      let found := token.approvals.any fun ap => approvalMatches ap tokenId caller spender
      let newApprovals := token.approvals.map (replaceAllowance tokenId caller spender allowance)
      let finalApprovals :=
        if found then newApprovals
        else newApprovals ++
          [{ tokenId := tokenId, owner := caller, spender := spender,
             allowance := allowance, expires_at := none, created_at := now }]
      let updatedToken : Token :=
        { id := token.id, metadata := token.metadata, balances := token.balances,
          approvals := finalApprovals }
      (Except.ok true, { st with tokens := st.tokens.set idx updatedToken })
    | none => (Except.error ApprovalError.TokenNotFound, st)

/-- Mirror of `transferFrom`.  The owner-is-caller branch moves the balance
directly, with no self-transfer check.  The spender branch captures `token`
before the balance move, and after a successful `transferTokens` writes back
a token rebuilt from that stale capture: `balances := token.balances` are
the pre-move balances, so the balance move is overwritten while the
allowance is decremented. -/
def transferFrom (caller : Account) (tokenId : TokenId) (owner recipient : Account)
    (amount : Tokens) (st : State) : Except TransferError Bool × State :=
  match findTokenIndex st.tokens tokenId with
  | some idx =>
    if caller = owner then
      match transferTokens st idx owner recipient amount with
      | some st2 => (Except.ok true, st2)
      | none => (Except.error TransferError.InsufficientBalance, st)
    else
      let token := st.tokens.getD idx default
      let scan := scanAllowance token.approvals tokenId owner caller
      if scan.1 = false ∨ scan.2 < amount then
        (Except.error TransferError.InsufficientBalance, st)
      else
        match transferTokens st idx owner recipient amount with
        | none => (Except.error TransferError.InsufficientBalance, st)
        | some stMoved =>
          let newApprovals := token.approvals.map (decrementAllowance tokenId owner caller amount)
          let updatedToken : Token :=
            { id := token.id, metadata := token.metadata, balances := token.balances,
              approvals := newApprovals }
          (Except.ok true, { stMoved with tokens := stMoved.tokens.set idx updatedToken })
  | none => (Except.error TransferError.TokenNotFound, st)

def msgInsufficientListingBalance : String := "Insufficient token balance to create listing"

def msgTokenNotFound : String := "Token not found"

def msgListingNotFound : String := "Listing not found"

def msgListingInactive : String := "Listing is not active"

def msgInsufficientListingAmount : String := "Insufficient amount available in listing"

def msgPaymentFailed : String :=
  "Payment failed - ensure you have approved the marketplace and have sufficient funds"

def msgTokenTransferFailed : String :=
  "Token transfer failed - seller may not have approved marketplace"

def msgOnlySeller : String := "Only seller can cancel listing"

/-- Mirror of `create_listing`: the listed token must exist and the seller
must currently hold at least `amount`; nothing else is validated.  The
listing is appended with `active = true`. -/
def create_listing (caller : Account) (tokenId : TokenId) (amount : Tokens)
    (price_tokenId : TokenId) (price_amount_per_token : Tokens) (now : Nat) (st : State) :
    Except String Nat × State :=
  match findTokenIndex st.tokens tokenId with
  | some idx =>
    let balance := getBalance st idx caller
    if balance < amount then (Except.error msgInsufficientListingBalance, st)
    else
      let listing : Listing :=
        { id := st.nextListingId, tokenId := tokenId, seller := caller, amount := amount,
          price_tokenId := price_tokenId,
          price_amount_per_token := price_amount_per_token,
          created_at := now, active := true }
      (Except.ok st.nextListingId,
        { st with listings := st.listings ++ [listing],
                  nextListingId := st.nextListingId + 1 })
  | none => (Except.error msgTokenNotFound, st)

/-- Worker for the listing-search loops of `buy` and `cancel_listing`: the
Motoko loop keeps overwriting `listingIdx`, so the last matching index
wins. -/
def findListingIdxAux (listingId : Nat) : Nat → Option Nat → List Listing → Option Nat
  | _, acc, [] => acc
  | i, acc, l :: ls =>
    findListingIdxAux listingId (i + 1) (if l.id = listingId then some i else acc) ls

/-- Listing search of `buy` and `cancel_listing`. -/
def findListingIdx (ls : List Listing) (listingId : Nat) : Option Nat :=
  findListingIdxAux listingId 0 none ls

/-- Mirror of `buy`.  `self` is the principal of the canister itself: the two inner
`transferFrom` calls and the compensating `transfer` are self-calls, so
their message caller is the canister, not the buyer.  The compensating
result of the compensating transfer is discarded (`ignore`), and the listing update reuses
the `listing` record captured before the two legs ran. -/
def buy (self caller : Account) (listingId : Nat) (amount_to_buy : Tokens) (st : State) :
    Except String Bool × State :=
  match findListingIdx st.listings listingId with
  | none => (Except.error msgListingNotFound, st)
  | some idx =>
    let listing := st.listings.getD idx default
    if listing.active = false then (Except.error msgListingInactive, st)
    else if listing.amount < amount_to_buy then
      (Except.error msgInsufficientListingAmount, st)
    else
      let total_price := amount_to_buy * listing.price_amount_per_token
      match transferFrom self listing.price_tokenId caller listing.seller total_price st with
      | (Except.error _, st1) => (Except.error msgPaymentFailed, st1)
      | (Except.ok _, st1) =>
        match transferFrom self listing.tokenId listing.seller caller amount_to_buy st1 with
        | (Except.error _, st2) =>
          let st3 := (transfer self listing.price_tokenId caller total_price st2).2
          (Except.error msgTokenTransferFailed, st3)
        | (Except.ok _, st2) =>
          let newAmount := listing.amount - amount_to_buy
          let updatedListing : Listing :=
            { id := listing.id, tokenId := listing.tokenId, seller := listing.seller,
              amount := newAmount, price_tokenId := listing.price_tokenId,
              price_amount_per_token := listing.price_amount_per_token,
              created_at := listing.created_at,
              active := if newAmount = 0 then false else true }
          (Except.ok true, { st2 with listings := st2.listings.set idx updatedListing })

/-- Mirror of `cancel_listing`: only the seller may cancel; the listing is
rewritten with `active := false` regardless of its remaining amount, and the
current `active` flag is never consulted. -/
def cancel_listing (caller : Account) (listingId : Nat) (st : State) :
    Except String Bool × State :=
  match findListingIdx st.listings listingId with
  | none => (Except.error msgListingNotFound, st)
  | some idx =>
    let listing := st.listings.getD idx default
    if ¬ (listing.seller = caller) then (Except.error msgOnlySeller, st)
    else
      let updatedListing : Listing :=
        { id := listing.id, tokenId := listing.tokenId, seller := listing.seller,
          amount := listing.amount, price_tokenId := listing.price_tokenId,
          price_amount_per_token := listing.price_amount_per_token,
          created_at := listing.created_at, active := false }
      (Except.ok true, { st with listings := st.listings.set idx updatedListing })

/-- Mirror of the `balance_of` query. -/
def balance_of (st : State) (tokenId : TokenId) (account : Account) : Tokens :=
  match findTokenIndex st.tokens tokenId with
  | some idx => getBalance st idx account
  | none => 0

/-- Mirror of the `total_supply` query. -/
def total_supply (st : State) (tokenId : TokenId) : Tokens :=
  match findTokenIndex st.tokens tokenId with
  | some idx => (st.tokens.getD idx default).metadata.total_supply
  | none => 0

/-- Mirror of the `get_listing` query (first matching listing). -/
def get_listing (st : State) (listingId : Nat) : Option Listing :=
  st.listings.find? fun l => decide (l.id = listingId)

/-- Observer for claim C1: the sum of all balance entries recorded for a
token. -/
def sumBalances (st : State) (tokenId : TokenId) : Tokens :=
  match findTokenIndex st.tokens tokenId with
  | some idx => ((st.tokens.getD idx default).balances.map Prod.snd).sum
  | none => 0

/-- Observer for the recorded allowance of a (token, owner, spender) key,
read exactly the way `transferFrom` reads it (last matching approval wins,
defaulting to `0`). -/
def lookupAllowance (st : State) (tokenId : TokenId) (owner spender : Account) : Tokens :=
  match findTokenIndex st.tokens tokenId with
  | some idx => (scanAllowance (st.tokens.getD idx default).approvals tokenId owner spender).2
  | none => 0

/-- Initial state of the canister: empty arrays, both counters at zero. -/
def initState : State :=
  { tokens := [], listings := [], nextTokenId := 0, nextListingId := 0 }

/-! Concrete call traces used by the claim theorems.  Account `1` is A,
account `2` is B, account `3` is an unrelated recipient, account `9` is the
principal of the canister itself (the marketplace engine), and account `0` is the
anonymous principal. -/

/-- Account 1 creates token 0 ("Alpha", supply 100). -/
def traceStA : State := (create_token 1 "Alpha" "ALP" 100 0 none 0 initState).2

/-- Account 1 then calls `transferFrom` on token 0 with owner = recipient =
itself and amount 50. -/
def traceSelfTF : Except TransferError Bool × State := transferFrom 1 0 1 1 50 traceStA

/-- On top of `traceStA`, account 1 approves account 2 for 60 units of
token 0. -/
def traceStB : State := (approve 1 0 2 60 0 traceStA).2

/-- Account 2 then spends 40 of that allowance towards account 3. -/
def traceTF2 : Except TransferError Bool × State := transferFrom 2 0 1 3 40 traceStB

/-- Scenario of spec section 8: account 1 (A) creates token 0
("Alpha", supply 1000000). -/
def scnS0 : State := (create_token 1 "Alpha" "ALP" 1000000 0 none 0 initState).2

/-- Account 2 (B) creates token 1 ("Beta", supply 500). -/
def scnS1 : State := (create_token 2 "Beta" "BET" 500 0 none 0 scnS0).2

/-- A lists 100 Alpha at 2 Beta per unit (listing 0). -/
def scnS2 : State := (create_listing 1 0 100 1 2 0 scnS1).2

/-- B grants the engine (account 9) an allowance of 200 Beta. -/
def scnS3 : State := (approve 2 1 9 200 0 scnS2).2

/-- A grants the engine an allowance of 100 Alpha. -/
def scnS4 : State := (approve 1 0 9 100 0 scnS3).2

/-- B buys 50 units from listing 0. -/
def scnBuy : Except String Bool × State := buy 9 2 0 50 scnS4

/-- On top of `scnS1`, A lists 50 Alpha at 2 Beta per unit (listing 0);
used by the C5 and C7 traces. -/
def listTrace : State := (create_listing 1 0 50 1 2 0 scnS1).2

/-- Only the buyer approves the engine (200 Beta); the seller never grants
the engine an Alpha allowance, so Leg B of a `buy` must fail. -/
def c5Setup : State := (approve 2 1 9 200 0 listTrace).2

/-- B buys 10 units: Leg A succeeds, Leg B fails, the compensating
transfer is attempted from the (empty) balance of the engine itself. -/
def c5Buy : Except String Bool × State := buy 9 2 0 10 c5Setup

/-- The seller cancels listing 0 of `listTrace`. -/
def c7Cancel1 : Except String Bool × State := cancel_listing 1 0 listTrace

/-- The seller cancels listing 0 a second time. -/
def c7Cancel2 : Except String Bool × State := cancel_listing 1 0 c7Cancel1.2

/-- The anonymous principal approves account 1 for 5 units of token 0. -/
def c8Approve : Except ApprovalError Bool × State := approve 0 0 1 5 0 traceStA

/-- On top of `traceStA`, account 2 creates token 1 ("Beta", supply 50). -/
def c8S2 : State := (create_token 2 "Beta" "BET" 50 0 none 0 traceStA).2

/-- Account 2 sends 20 Beta to the anonymous principal. -/
def c8S3 : State := (transfer 2 1 0 20 c8S2).2

/-- The anonymous principal calls `transfer`: 5 Beta to account 3. -/
def c8Transfer : Except TransferError Bool × State := transfer 0 1 3 5 c8S3

/-- Account 1 grants the anonymous principal an allowance of 15 Alpha. -/
def c8ApproveToAnon : State := (approve 1 0 0 15 0 c8S3).2

/-- The anonymous principal calls `transferFrom` as the spender of that
allowance (token 0, owner 1, recipient 3, amount 15). -/
def c8TransferFrom : Except TransferError Bool × State := transferFrom 0 0 1 3 15 c8ApproveToAnon

/-- The anonymous principal calls `create_listing`: 5 Beta at 1 Alpha per
unit (listing 0). -/
def c8CreateListing : Except String Nat × State := create_listing 0 1 5 0 1 0 c8S3

/-- The anonymous principal, as the seller of listing 0, calls
`cancel_listing`. -/
def c8CancelListing : Except String Bool × State := cancel_listing 0 0 c8CreateListing.2

/-- Account 1 lists 10 Alpha at 2 Beta per unit (listing 0). -/
def c8S4 : State := (create_listing 1 0 10 1 2 0 c8S3).2

/-- The anonymous principal grants the engine (account 9) 20 Beta. -/
def c8S5 : State := (approve 0 1 9 20 0 c8S4).2

/-- Account 1 grants the engine 10 Alpha. -/
def c8S6 : State := (approve 1 0 9 10 0 c8S5).2

/-- The anonymous principal calls `buy` for 5 units of listing 0. -/
def c8Buy : Except String Bool × State := buy 9 0 0 5 c8S6

end Pulse

namespace PulseRBAC

open Pulse (Account TokenId Tokens TokenMetadata isAnonymous isValidName isValidSymbol)

/-! Embedding of the role-based variant `src/pulse_backend/main.mo`: user
profiles, the admin allow-list and its `create_token`.  The `HashMap` of
profiles is modelled as an association list with first-match lookup and
replace-or-insert `put`; text validation, anonymity and token storage are
shared with the `Pulse` namespace, whose source text is identical. -/

inductive UserRole where
  | Admin
  | Creator
  | User
deriving DecidableEq, Inhabited

structure UserProfile where
  principal : Account
  role : UserRole
  createdAt : Nat
  lastActive : Nat
  tokensCreated : Nat
  isVerified : Bool
deriving DecidableEq, Inhabited

inductive CreateTokenError where
  | InvalidName
  | InvalidSymbol
  | InvalidSupply
  | AnonymousNotAllowed
  | InsufficientPermissions
  | RateLimitExceeded
  | InternalError (msg : String)
deriving DecidableEq

/-- Token of the role-based variant: no approvals array. -/
structure Token where
  id : TokenId
  metadata : TokenMetadata
  balances : List (Account × Tokens)
deriving DecidableEq, Inhabited

/-- Stable state of the role-based variant (the parts `create_token`
touches): tokens, the profile map, the admin allow-list and the token-id
counter. -/
structure State where
  tokens : List Token
  userProfiles : List (Account × UserProfile)
  adminPrincipals : List Account
  nextTokenId : TokenId
deriving DecidableEq, Inhabited

/-- `HashMap.get`: first-match association lookup. -/
def profilesGet : List (Account × UserProfile) → Account → Option UserProfile
  | [], _ => none
  | (a, p) :: rest, principal => if a = principal then some p else profilesGet rest principal

/-- `HashMap.put`: replace the entry for the key, or insert it. -/
def profilesPut (ps : List (Account × UserProfile)) (principal : Account) (p : UserProfile) :
    List (Account × UserProfile) :=
  let replaced := ps.map fun q => if q.1 = principal then (principal, p) else q
  if ps.any fun q => decide (q.1 = principal) then replaced else replaced ++ [(principal, p)]

/-- Mirror of `isAdmin`: a stored profile decides by role; otherwise the
hardcoded admin list is consulted. -/
def isAdmin (st : State) (principal : Account) : Bool :=
  match profilesGet st.userProfiles principal with
  | some profile =>
    match profile.role with
    | UserRole.Admin => true
    | _ => false
  | none => st.adminPrincipals.any fun admin => decide (admin = principal)

/-- Mirror of `hasCreatePermission`: the open-platform policy, constantly
true. -/
def hasCreatePermission (_principal : Account) : Bool := true

/-- Mirror of `getUserOrCreate`: returns the stored profile, or creates one
with role derived from the admin list. -/
def getUserOrCreate (st : State) (principal : Account) (now : Nat) : UserProfile × State :=
  match profilesGet st.userProfiles principal with
  | some profile => (profile, st)
  | none =>
    let role := if isAdmin st principal then UserRole.Admin else UserRole.User
    let newProfile : UserProfile :=
      { principal := principal, role := role, createdAt := now, lastActive := now,
        tokensCreated := 0, isVerified := false }
    (newProfile, { st with userProfiles := profilesPut st.userProfiles principal newProfile })

/-- Mirror of `updateUserActivity`: refresh `lastActive` of an existing
profile, or create the profile. -/
def updateUserActivity (st : State) (principal : Account) (now : Nat) : State :=
  match profilesGet st.userProfiles principal with
  | some profile =>
    { st with userProfiles :=
        profilesPut st.userProfiles principal { profile with lastActive := now } }
  | none => (getUserOrCreate st principal now).2

/-- Mirror of the role-based `create_token`: `updateUserActivity` runs
before any validation, then the checks anonymous → permission → name →
symbol → supply, then the token is appended and the creator
`tokensCreated` counter is bumped. -/
def create_token (caller : Account) (name symbol : String) (initial_supply : Tokens)
    (decimals : Nat) (logo_url : Option String) (now : Nat) (st : State) :
    Except CreateTokenError TokenId × State :=
  let st0 := updateUserActivity st caller now
  if isAnonymous caller then (Except.error CreateTokenError.AnonymousNotAllowed, st0)
  else if !(hasCreatePermission caller) then
    (Except.error CreateTokenError.InsufficientPermissions, st0)
  else if !(isValidName name) then (Except.error CreateTokenError.InvalidName, st0)
  else if !(isValidSymbol symbol) then (Except.error CreateTokenError.InvalidSymbol, st0)
  else if initial_supply = 0 then (Except.error CreateTokenError.InvalidSupply, st0)
  else
    let metadata : TokenMetadata :=
      { name := name, symbol := symbol, decimals := decimals,
        total_supply := initial_supply, minting_account := caller,
        logo_url := logo_url, description := none, created_at := now }
    let newToken : Token :=
      { id := st0.nextTokenId, metadata := metadata, balances := [(caller, initial_supply)] }
    let st1 : State :=
      { st0 with tokens := st0.tokens ++ [newToken], nextTokenId := st0.nextTokenId + 1 }
    let profileAndState := getUserOrCreate st1 caller now
    let profile := profileAndState.1
    let st2 := profileAndState.2
    let updatedProfile := { profile with tokensCreated := profile.tokensCreated + 1 }
    (Except.ok st0.nextTokenId,
      { st2 with userProfiles := profilesPut st2.userProfiles caller updatedProfile })

/-- Fresh-deployment state of the role-based variant: no tokens, no
profiles, empty admin list, counter at zero. -/
def initState : State :=
  { tokens := [], userProfiles := [], adminPrincipals := [], nextTokenId := 0 }

end PulseRBAC

/-!
Helper lemmas about the list operations and the approval scan, followed by
one theorem (plus witness or counterexample) per specification claim.
-/

namespace Pulse

/-- Writing back the element a list already holds at an index leaves the
list unchanged. -/
theorem list_set_of_get?_eq {α : Type} :
    ∀ (l : List α) (i : Nat) (a : α), l.get? i = some a → l.set i a = l
  | [], _, _, h => by simp at h
  | x :: xs, 0, a, h => by
    simp only [List.get?] at h
    simp [Option.some.injEq] at h
    simp [List.set, h]
  | x :: xs, i + 1, a, h => by
    simp only [List.get?] at h
    simp [List.set, list_set_of_get?_eq xs i a h]

/-- Reading with a default at an index known to hold `a` yields `a`. -/
theorem getD_of_get? {α : Type} [Inhabited α] (l : List α) (i : Nat) (a : α)
    (h : l.get? i = some a) : l.getD i default = a := by
  rw [List.getD_eq_get?, h]
  rfl

/-- The token search only depends on the ids of the stored tokens. -/
theorem findTokenIndexAux_congr (id : TokenId) :
    ∀ (i : Nat) (ts ts' : List Token), ts.map Token.id = ts'.map Token.id →
      findTokenIndexAux id i ts = findTokenIndexAux id i ts'
  | _, [], [], _ => rfl
  | _, [], _ :: _, h => by simp at h
  | _, _ :: _, [], h => by simp at h
  | i, t :: ts, t' :: ts', h => by
    simp only [List.map, List.cons.injEq] at h
    obtain ⟨h1, h2⟩ := h
    simp only [findTokenIndexAux, h1]
    rcases Decidable.em (t'.id = id) with he | he
    · simp [he]
    · simp [he, findTokenIndexAux_congr id (i + 1) ts ts' h2]

/-- Replacing a token by one with the same id does not move the result of
the token search. -/
theorem findTokenIndex_set_same_id (ts : List Token) (idx : Nat) (t u : Token)
    (hget : ts.get? idx = some t) (hid : u.id = t.id) (tid : TokenId) :
    findTokenIndex (ts.set idx u) tid = findTokenIndex ts tid := by
  apply findTokenIndexAux_congr
  rw [List.map_set, hid]
  apply list_set_of_get?_eq
  rw [List.get?_map, hget]
  rfl

/-- Rewriting an allowance value preserves the (token, owner, spender) key
of the approval, hence whether it matches. -/
theorem approvalMatches_replaceAllowance (tid : TokenId) (o s : Account) (N : Tokens)
    (ap : Approval) :
    approvalMatches (replaceAllowance tid o s N ap) tid o s = approvalMatches ap tid o s := by
  unfold replaceAllowance
  split <;> rfl

/-- Scanning a snoc: the appended approval wins when it matches. -/
theorem scanAllowance_append (xs : List Approval) (ap : Approval) (tid : TokenId)
    (o s : Account) :
    scanAllowance (xs ++ [ap]) tid o s =
      if approvalMatches ap tid o s then (true, ap.allowance) else scanAllowance xs tid o s := by
  unfold scanAllowance
  rw [List.foldl_append]
  rfl

/-- After rewriting every matching approval to allowance `N`, the scan
returns `(true, N)` as soon as some entry matched. -/
theorem scanAllowance_map_replace (tid : TokenId) (o s : Account) (N : Tokens) :
    ∀ xs : List Approval, xs.any (fun ap => approvalMatches ap tid o s) = true →
      scanAllowance (xs.map (replaceAllowance tid o s N)) tid o s = (true, N) := by
  intro xs
  induction xs using List.reverseRecOn with
  | nil => intro h; simp at h
  | append_singleton xs x ih =>
    intro h
    rw [List.map_append, List.map_singleton, scanAllowance_append,
      approvalMatches_replaceAllowance]
    by_cases hm : approvalMatches x tid o s = true
    · rw [if_pos hm]
      unfold replaceAllowance
      rw [if_pos hm]
    · rw [if_neg (by simp [hm])]
      apply ih
      rw [List.any_append] at h
      simp [hm] at h
      simp [h]

/-- A freshly created approval record matches its own key. -/
theorem approvalMatches_new (tid : TokenId) (o s : Account) (N : Tokens) (now : Nat) :
    approvalMatches
      { tokenId := tid, owner := o, spender := s, allowance := N,
        expires_at := none, created_at := now } tid o s = true := by
  unfold approvalMatches
  simp

/-- Behaviour of `approve` on an existing token with a distinct spender: it
succeeds, the recorded allowance becomes exactly `N` (for any `N`, with no
reference to any balance), and balances and listings are untouched. -/
theorem approve_spec (st : State) (caller spender : Account) (tid : TokenId)
    (N now idx : Nat) (t : Token) (hne : caller ≠ spender)
    (hfind : findTokenIndex st.tokens tid = some idx)
    (hget : st.tokens.get? idx = some t) :
    (approve caller tid spender N now st).1 = Except.ok true ∧
    lookupAllowance (approve caller tid spender N now st).2 tid caller spender = N ∧
    ((approve caller tid spender N now st).2.tokens.getD idx default).balances = t.balances ∧
    (approve caller tid spender N now st).2.listings = st.listings := by
  have hgetD : st.tokens.getD idx default = t := getD_of_get? _ _ _ hget
  obtain ⟨hlt, -⟩ := List.get?_eq_some.mp hget
  unfold approve
  rw [if_neg hne, hfind]
  simp only [hgetD]
  set F : List Approval :=
    (if t.approvals.any (fun ap => approvalMatches ap tid caller spender) then
      t.approvals.map (replaceAllowance tid caller spender N)
    else t.approvals.map (replaceAllowance tid caller spender N) ++
      [{ tokenId := tid, owner := caller, spender := spender, allowance := N,
         expires_at := none, created_at := now }]) with hF
  have hFscan : (scanAllowance F tid caller spender).2 = N := by
    rw [hF]
    by_cases hfound : t.approvals.any (fun ap => approvalMatches ap tid caller spender) = true
    · rw [if_pos hfound, scanAllowance_map_replace tid caller spender N t.approvals hfound]
    · rw [if_neg hfound, scanAllowance_append]
      rw [if_pos (approvalMatches_new tid caller spender N now)]
  refine ⟨trivial, ?_, ?_, trivial⟩
  · unfold lookupAllowance
    dsimp only
    rw [findTokenIndex_set_same_id st.tokens idx t
      { id := t.id, metadata := t.metadata, balances := t.balances, approvals := F }
      hget rfl tid, hfind]
    dsimp only
    rw [getD_of_get? _ _ _ (List.get?_set_eq_of_lt _ hlt)]
    exact hFscan
  · rw [getD_of_get? _ _ _ (List.get?_set_eq_of_lt _ hlt)]

/-- The listing search only depends on the ids of the stored listings. -/
theorem findListingIdxAux_congr (lid : Nat) :
    ∀ (i : Nat) (acc : Option Nat) (ls ls' : List Listing),
      ls.map Listing.id = ls'.map Listing.id →
      findListingIdxAux lid i acc ls = findListingIdxAux lid i acc ls'
  | _, _, [], [], _ => rfl
  | _, _, [], _ :: _, h => by simp at h
  | _, _, _ :: _, [], h => by simp at h
  | i, acc, l :: ls, l' :: ls', h => by
    simp only [List.map, List.cons.injEq] at h
    obtain ⟨h1, h2⟩ := h
    simp only [findListingIdxAux, h1]
    exact findListingIdxAux_congr lid (i + 1) _ ls ls' h2

/-- Replacing a listing by one with the same id does not move the result of
the listing search. -/
theorem findListingIdx_set_same_id (ls : List Listing) (idx : Nat) (L u : Listing)
    (hget : ls.get? idx = some L) (hid : u.id = L.id) (lid : Nat) :
    findListingIdx (ls.set idx u) lid = findListingIdx ls lid := by
  apply findListingIdxAux_congr
  rw [List.map_set, hid]
  apply list_set_of_get?_eq
  rw [List.get?_map, hget]
  rfl

/-- A cancel request from any caller other than the seller of the found
listing fails and leaves the state unchanged. -/
theorem cancel_listing_nonseller (st : State) (lid idx : Nat) (L : Listing) (caller : Account)
    (hfind : findListingIdx st.listings lid = some idx)
    (hget : st.listings.get? idx = some L) (hc : caller ≠ L.seller) :
    cancel_listing caller lid st = (Except.error msgOnlySeller, st) := by
  unfold cancel_listing
  rw [hfind]
  dsimp only
  rw [getD_of_get? _ _ _ hget]
  rw [if_pos (fun h => hc h.symm)]

/-- A cancel request from the seller succeeds unconditionally (the current
`active` flag and the remaining amount are never consulted) and rewrites the
listing with `active := false`. -/
theorem cancel_listing_seller_eq (st : State) (lid idx : Nat) (L : Listing) (caller : Account)
    (hfind : findListingIdx st.listings lid = some idx)
    (hget : st.listings.get? idx = some L) (hc : caller = L.seller) :
    cancel_listing caller lid st =
      (Except.ok true, { st with listings := st.listings.set idx { L with active := false } }) := by
  subst hc
  unfold cancel_listing
  rw [hfind]
  dsimp only
  rw [getD_of_get? _ _ _ hget]
  rw [if_neg (fun h => h rfl)]

/-- A buy against an inactive listing fails and leaves the state
unchanged. -/
theorem buy_inactive (st : State) (lid idx : Nat) (L : Listing) (self caller : Account)
    (amt : Tokens) (hfind : findListingIdx st.listings lid = some idx)
    (hget : st.listings.get? idx = some L) (hL : L.active = false) :
    buy self caller lid amt st = (Except.error msgListingInactive, st) := by
  unfold buy
  rw [hfind]
  dsimp only
  rw [getD_of_get? _ _ _ hget]
  rw [if_pos hL]

/-- Claim C1, settled as a code bug.  The conservation invariant is violated
by a two-call trace: account 1 creates token 0 with supply 100, then calls
`transferFrom` with owner = recipient = itself and amount 50.  The call
reports success and afterwards the recorded balance entries for token 0 sum
to 150 while `total_supply` still reports 100 — `transferFrom` performs no
self-transfer check and `transferTokens` reads the credit-side balance
before writing the debit, so the transfer mints 50 units. -/
theorem claim_C1 : traceSelfTF.1 = Except.ok true ∧ sumBalances traceSelfTF.2 0 = 150 ∧
    total_supply traceSelfTF.2 0 = 100 := ⟨rfl, rfl, rfl⟩

/-- Claim C2, settled as a code bug.  In the spender path of `transferFrom`
(allowance 60, amount 40, owner balance 100), the call reports success and
reduces the allowance to exactly 20, but the balances do not move: before
the call the owner holds 100 and the recipient 0, and after the reported
success they still hold 100 and 0, because the final write-back rebuilds
the token from the balances captured before the transfer. -/
theorem claim_C2 : traceTF2.1 = Except.ok true ∧
    balance_of traceStB 0 1 = 100 ∧ balance_of traceStB 0 3 = 0 ∧
    lookupAllowance traceStB 0 1 2 = 60 ∧
    balance_of traceTF2.2 0 1 = 100 ∧ balance_of traceTF2.2 0 3 = 0 ∧
    lookupAllowance traceTF2.2 0 1 2 = 20 := ⟨rfl, rfl, rfl, rfl, rfl, rfl, rfl⟩

/-- Claim C3, settled as a code bug.  On the same arguments (token 0, owner
= caller = recipient = account 1, amount 50, owner balance 100), `transfer`
rejects with `SelfTransfer` and changes nothing, while `transferFrom` with
spenderCaller = owner reports success and leaves the owner with balance
150 — so the two entry points do not behave identically and the
self-transfer case is not rejected. -/
theorem claim_C3 : traceSelfTF.1 = Except.ok true ∧
    (transfer 1 0 1 50 traceStA).1 = Except.error TransferError.SelfTransfer ∧
    balance_of traceSelfTF.2 0 1 = 150 ∧ balance_of traceStA 0 1 = 100 :=
  ⟨rfl, rfl, rfl, rfl⟩

/-- Claim C4, settled as a code bug.  In the exact section-8 scenario the
`buy` call reports success, the listing drops to 50 and stays active, and
both engine allowances are duly consumed — but no balance moves at all: B
ends with 0 ALP (expected 50) and 500 Beta (expected 400), and A ends with
0 Beta (expected +100) and 1000000 ALP (expected −50), because both
settlement legs run through the spender path of `transferFrom`, whose
stale write-back reverts the balance moves. -/
theorem claim_C4 : scnBuy.1 = Except.ok true ∧
    (get_listing scnBuy.2 0).map (fun l => (l.amount, l.active)) = some (50, true) ∧
    balance_of scnBuy.2 0 2 = 0 ∧ balance_of scnBuy.2 1 2 = 500 ∧
    balance_of scnBuy.2 1 1 = 0 ∧ balance_of scnBuy.2 0 1 = 1000000 ∧
    lookupAllowance scnBuy.2 1 2 9 = 100 ∧ lookupAllowance scnBuy.2 0 1 9 = 50 :=
  ⟨rfl, rfl, rfl, rfl, rfl, rfl, rfl, rfl⟩

/-- Claim C5, settled as a code bug.  When Leg A succeeds and Leg B fails
(the seller granted no allowance), the compensating call is
`transfer(priceToken, buyer, totalPrice)` issued by the canister itself, so
it draws on the engine account (balance 0, not the seller) and therefore
fails; its result is discarded and `buy` returns the ordinary token-transfer
error — the final state is exactly the post-Leg-A state, with the Leg-A
allowance consumption (200 → 180) silently left in place and no distinct
fatal reconciliation error raised. -/
theorem claim_C5 : c5Buy.1 = Except.error msgTokenTransferFailed ∧
    c5Buy.2 = (transferFrom 9 1 2 1 20 c5Setup).2 ∧
    balance_of c5Buy.2 1 9 = 0 ∧ balance_of c5Buy.2 1 2 = 500 ∧
    lookupAllowance c5Buy.2 1 2 9 = 180 := ⟨rfl, rfl, rfl, rfl, rfl⟩

/-- Claim C7, counterexample to the claim as stated: after the seller
cancels listing 0, a second `cancel_listing` by the seller succeeds (returns
ok) instead of failing. -/
theorem claim_C7_counterexample : c7Cancel1.1 = Except.ok true ∧
    c7Cancel2.1 = Except.ok true := ⟨rfl, rfl⟩

/-- Claim C7 as amended: for every found listing that is active,
`cancel_listing` by a non-seller fails with the seller-only error and leaves
the state unchanged; `cancel_listing` by the seller succeeds and marks the
listing inactive regardless of its remaining amount; afterwards every `buy`
against it fails with the inactive-listing error, and a second
`cancel_listing` by the seller does not fail — it succeeds again,
idempotently leaving the cancelled state unchanged. -/
theorem claim_C7 (st : State) (lid idx : Nat) (L : Listing) (nonseller self b : Account)
    (amt : Tokens)
    (hfind : findListingIdx st.listings lid = some idx)
    (hget : st.listings.get? idx = some L)
    (hns : nonseller ≠ L.seller) :
    cancel_listing nonseller lid st = (Except.error msgOnlySeller, st) ∧
    (cancel_listing L.seller lid st).1 = Except.ok true ∧
    (cancel_listing L.seller lid st).2.listings =
      st.listings.set idx { L with active := false } ∧
    buy self b lid amt (cancel_listing L.seller lid st).2 =
      (Except.error msgListingInactive, (cancel_listing L.seller lid st).2) ∧
    (cancel_listing L.seller lid (cancel_listing L.seller lid st).2).1 = Except.ok true ∧
    (cancel_listing L.seller lid (cancel_listing L.seller lid st).2).2 =
      (cancel_listing L.seller lid st).2 := by
  obtain ⟨hlt, -⟩ := List.get?_eq_some.mp hget
  have hcancel := cancel_listing_seller_eq st lid idx L L.seller hfind hget rfl
  have hfind' : findListingIdx (st.listings.set idx ({ L with active := false } : Listing))
      lid = some idx := by
    rw [findListingIdx_set_same_id st.listings idx L ({ L with active := false }) hget rfl lid]
    exact hfind
  have hget' : (st.listings.set idx ({ L with active := false } : Listing)).get? idx =
      some ({ L with active := false } : Listing) :=
    List.get?_set_eq_of_lt _ hlt
  refine ⟨cancel_listing_nonseller st lid idx L nonseller hfind hget hns, ?_, ?_, ?_, ?_, ?_⟩
  · rw [hcancel]
  · rw [hcancel]
  · rw [hcancel]
    exact buy_inactive _ lid idx ({ L with active := false }) self b amt hfind' hget' rfl
  · rw [hcancel,
      cancel_listing_seller_eq _ lid idx ({ L with active := false }) L.seller hfind' hget' rfl]
  · rw [hcancel,
      cancel_listing_seller_eq _ lid idx ({ L with active := false }) L.seller hfind' hget' rfl]
    dsimp only
    rw [List.set_set]

/-- Claim C7 witness: the amended theorem applied to the concrete listing
trace (seller is account 1, non-seller is account 2). -/
theorem claim_C7_witness :
    cancel_listing 2 0 listTrace = (Except.error msgOnlySeller, listTrace) ∧
    (cancel_listing 1 0 listTrace).1 = Except.ok true ∧
    (cancel_listing 1 0 (cancel_listing 1 0 listTrace).2).1 = Except.ok true := by
  have h := claim_C7 listTrace 0 0 (listTrace.listings.getD 0 default) 2 9 2 10 rfl rfl
    (by decide)
  exact ⟨h.1, h.2.1, h.2.2.2.2.1⟩

/-- Claim C8, counterexample to the claim as stated: the anonymous
principal (account 0) calls `approve` on an existing token and the call
succeeds and records the allowance — `approve` performs no anonymity
check, so anonymous callers are not rejected by every mutating entry
point. -/
theorem claim_C8_counterexample : c8Approve.1 = Except.ok true ∧
    lookupAllowance c8Approve.2 0 0 1 = 5 ∧
    lookupAllowance traceStA 0 0 1 = 0 := ⟨rfl, rfl, rfl⟩

/-- Claim C8 as amended: only `create_token` rejects an anonymous caller
(first, with no state change, for every state and argument list); the
other six mutating entry points perform no anonymity check, and each of
them is exhibited succeeding and mutating state for the anonymous
principal: `approve` succeeds on every existing token with a distinct
spender and records the allowance; `transfer` moves an anonymous balance;
`transferFrom` spends an allowance granted to the anonymous principal;
`create_listing` creates an active anonymous listing; `cancel_listing`
cancels it; and `buy` purchases from a listing, paid out of the anonymous
allowance to the engine. -/
theorem claim_C8 (st : State) (name symbol : String) (supply : Tokens)
    (decimals : Nat) (logo : Option String) (now : Nat) (tid : TokenId)
    (spender : Account) (N : Tokens) (idx : Nat) (t : Token) :
    create_token anonymousAccount name symbol supply decimals logo now st =
      (Except.error CreateTokenError.AnonymousNotAllowed, st) ∧
    (spender ≠ anonymousAccount →
      findTokenIndex st.tokens tid = some idx →
      st.tokens.get? idx = some t →
      (approve anonymousAccount tid spender N now st).1 = Except.ok true ∧
      lookupAllowance (approve anonymousAccount tid spender N now st).2
        tid anonymousAccount spender = N) ∧
    (c8Transfer.1 = Except.ok true ∧
      balance_of c8S3 1 3 = 0 ∧ balance_of c8Transfer.2 1 3 = 5) ∧
    (c8TransferFrom.1 = Except.ok true ∧
      lookupAllowance c8ApproveToAnon 0 1 anonymousAccount = 15 ∧
      lookupAllowance c8TransferFrom.2 0 1 anonymousAccount = 0) ∧
    (c8CreateListing.1 = Except.ok 0 ∧
      (get_listing c8CreateListing.2 0).map (fun l => (l.seller, l.active)) =
        some (anonymousAccount, true)) ∧
    (c8CancelListing.1 = Except.ok true ∧
      (get_listing c8CancelListing.2 0).map (fun l => l.active) = some false) ∧
    (c8Buy.1 = Except.ok true ∧
      (get_listing c8Buy.2 0).map (fun l => (l.amount, l.active)) = some (5, true)) := by
  refine ⟨rfl, ?_, ⟨rfl, rfl, rfl⟩, ⟨rfl, rfl, rfl⟩, ⟨rfl, rfl⟩, ⟨rfl, rfl⟩, ⟨rfl, rfl⟩⟩
  intro hsp hfind hget
  have h := approve_spec st anonymousAccount spender tid N now idx t
    (fun hh => hsp hh.symm) hfind hget
  exact ⟨h.1, h.2.1⟩

/-- Claim C8 witness: the amended theorem applied at a concrete state with
one token, an anonymous `create_token` rejection and a successful anonymous
`approve`. -/
theorem claim_C8_witness : create_token anonymousAccount "Tok" "TK" 5 0 none 0 traceStA =
      (Except.error CreateTokenError.AnonymousNotAllowed, traceStA) ∧
    (approve anonymousAccount 0 3 5 0 traceStA).1 = Except.ok true ∧
    lookupAllowance (approve anonymousAccount 0 3 5 0 traceStA).2 0 anonymousAccount 3 = 5 := by
  have h := claim_C8 traceStA "Tok" "TK" 5 0 none 0 0 3 5 0 (traceStA.tokens.getD 0 default)
  exact ⟨h.1, (h.2.1 (by decide) rfl rfl).1, (h.2.1 (by decide) rfl rfl).2⟩

/-- Claim C9, confirmed: on an existing token, for every spender distinct
from the owner and every allowance value `N` (including `0` and values
above the owner balance — no balance is ever consulted), `approve` succeeds
and the recorded (token, owner, spender) allowance becomes exactly `N`,
replacing any previous value; balances and listings are untouched. -/
theorem claim_C9 (st : State) (caller spender : Account) (tid : TokenId)
    (N now idx : Nat) (t : Token) (hne : caller ≠ spender)
    (hfind : findTokenIndex st.tokens tid = some idx)
    (hget : st.tokens.get? idx = some t) :
    (approve caller tid spender N now st).1 = Except.ok true ∧
    lookupAllowance (approve caller tid spender N now st).2 tid caller spender = N ∧
    ((approve caller tid spender N now st).2.tokens.getD idx default).balances = t.balances ∧
    (approve caller tid spender N now st).2.listings = st.listings :=
  approve_spec st caller spender tid N now idx t hne hfind hget

/-- Claim C9 witness: the theorem applied at the concrete one-token state,
once with `N = 0` and once with `N = 500` (which exceeds the owner balance
of 100); the previous value 0 is replaced in both cases. -/
theorem claim_C9_witness : (approve 1 0 2 0 0 traceStA).1 = Except.ok true ∧
    lookupAllowance (approve 1 0 2 0 0 traceStA).2 0 1 2 = 0 ∧
    (approve 1 0 2 500 0 traceStA).1 = Except.ok true ∧
    lookupAllowance (approve 1 0 2 500 0 traceStA).2 0 1 2 = 500 := by
  have h1 := claim_C9 traceStA 1 2 0 0 0 0 (traceStA.tokens.getD 0 default)
    (by decide) rfl rfl
  have h2 := claim_C9 traceStA 1 2 0 500 0 0 (traceStA.tokens.getD 0 default)
    (by decide) rfl rfl
  exact ⟨h1.1, h1.2.1, h2.1, h2.2.1⟩

/-- Claim C10, confirmed: whenever the listed token exists and the seller
balance is at least the requested amount (with no lower bound on the
amount, so `amount = 0` is allowed), `create_listing` succeeds for every
price token id and every per-unit price — neither is validated — and
appends a listing with `active := true`. -/
theorem claim_C10 (st : State) (caller : Account) (tid : TokenId)
    (amount : Tokens) (ptid : TokenId) (ppu : Tokens) (now idx : Nat) (t : Token)
    (hfind : findTokenIndex st.tokens tid = some idx)
    (hget : st.tokens.get? idx = some t)
    (hbal : amount ≤ balanceLookup t.balances caller) :
    create_listing caller tid amount ptid ppu now st =
      (Except.ok st.nextListingId,
        { st with
          listings := st.listings ++
            [({ id := st.nextListingId, tokenId := tid, seller := caller, amount := amount,
                price_tokenId := ptid, price_amount_per_token := ppu, created_at := now,
                active := true } : Listing)],
          nextListingId := st.nextListingId + 1 }) := by
  unfold create_listing getBalance
  rw [hfind]
  dsimp only
  rw [getD_of_get? _ _ _ hget]
  rw [if_neg (Nat.not_lt.mpr hbal)]

/-- Claim C10 witness: the theorem applied at the concrete one-token state
with amount 0, a price token id (999) that does not exist and a per-unit
price of 0; the listing is created active. -/
theorem claim_C10_witness : (create_listing 2 0 0 999 0 0 traceStA).1 = Except.ok 0 ∧
    (get_listing (create_listing 2 0 0 999 0 0 traceStA).2 0).map (fun l => l.active) =
      some true := by
  have h := claim_C10 traceStA 2 0 0 999 0 0 0 (traceStA.tokens.getD 0 default)
    rfl rfl (by decide)
  rw [h]
  exact ⟨rfl, rfl⟩

end Pulse

namespace PulseRBAC

open Pulse (isAnonymous isValidName isValidSymbol)

/-- Claim C6, counterexample to the claim as stated: an anonymous
`create_token` with otherwise valid arguments is rejected with
`AnonymousNotAllowed`, yet the state is not left unchanged — a user profile
for the anonymous principal has been created by the `updateUserActivity`
call that runs before any validation. -/
theorem claim_C6_counterexample :
    (create_token 0 "Alpha" "ALP" 100 0 none 7 initState).1 =
      Except.error CreateTokenError.AnonymousNotAllowed ∧
    (create_token 0 "Alpha" "ALP" 100 0 none 7 initState).2.userProfiles =
      [(0, { principal := 0, role := UserRole.User, createdAt := 7, lastActive := 7,
             tokensCreated := 0, isVerified := false })] := ⟨rfl, rfl⟩

/-- Claim C6 as amended: `create_token` validates in the order caller not
anonymous → create permission (constantly granted in the open-platform
configuration) → name length → symbol length → positive supply, and the
first failing check determines the error; a rejected call leaves tokens and
the token-id counter unchanged, but the caller user profile is still
created or refreshed (`updateUserActivity` runs before validation), so the
state is not byte-for-byte unchanged. -/
theorem claim_C6 (caller : Pulse.Account) (name symbol : String)
    (initial_supply : Pulse.Tokens) (decimals : Nat) (logo_url : Option String)
    (now : Nat) (st : State) :
    (isAnonymous caller = true →
      (create_token caller name symbol initial_supply decimals logo_url now st).1 =
        Except.error CreateTokenError.AnonymousNotAllowed) ∧
    (isAnonymous caller = false → isValidName name = false →
      (create_token caller name symbol initial_supply decimals logo_url now st).1 =
        Except.error CreateTokenError.InvalidName) ∧
    (isAnonymous caller = false → isValidName name = true → isValidSymbol symbol = false →
      (create_token caller name symbol initial_supply decimals logo_url now st).1 =
        Except.error CreateTokenError.InvalidSymbol) ∧
    (isAnonymous caller = false → isValidName name = true → isValidSymbol symbol = true →
      initial_supply = 0 →
      (create_token caller name symbol initial_supply decimals logo_url now st).1 =
        Except.error CreateTokenError.InvalidSupply) ∧
    (∀ e, (create_token caller name symbol initial_supply decimals logo_url now st).1 =
        Except.error e →
      (create_token caller name symbol initial_supply decimals logo_url now st).2 =
        updateUserActivity st caller now) := by
  refine ⟨?_, ?_, ?_, ?_, ?_⟩
  · intro h1
    simp [create_token, h1]
  · intro h1 h2
    simp [create_token, hasCreatePermission, h1, h2]
  · intro h1 h2 h3
    simp [create_token, hasCreatePermission, h1, h2, h3]
  · intro h1 h2 h3 h4
    simp [create_token, hasCreatePermission, h1, h2, h3, h4]
  · intro e he
    by_cases h1 : isAnonymous caller = true
    · simp [create_token, h1]
    · by_cases h2 : isValidName name = true
      · by_cases h3 : isValidSymbol symbol = true
        · by_cases h4 : initial_supply = 0
          · simp [create_token, hasCreatePermission, h1, h2, h3, h4]
          · exfalso
            simp [create_token, hasCreatePermission, h1, h2, h3, h4] at he
        · simp [create_token, hasCreatePermission, h1, h2, h3]
      · simp [create_token, hasCreatePermission, h1, h2]

/-- Claim C6 witness: the amended theorem applied to an anonymous caller on
the fresh state — the call is rejected with `AnonymousNotAllowed` and the
resulting state is exactly the profile-refreshed state. -/
theorem claim_C6_witness : (create_token 0 "Tok" "TK" 5 0 none 7 initState).1 =
      Except.error CreateTokenError.AnonymousNotAllowed ∧
    (create_token 0 "Tok" "TK" 5 0 none 7 initState).2 = updateUserActivity initState 0 7 := by
  have h := claim_C6 0 "Tok" "TK" 5 0 none 7 initState
  exact ⟨h.1 rfl, h.2.2.2.2 CreateTokenError.AnonymousNotAllowed (h.1 rfl)⟩

end PulseRBAC
